import Mathlib

/-!
# Verification of the pagi-phoenix-agi core orchestrator

Shallow embedding of the `pagi-core-orchestrator` Rust crate
(`src/main.rs`, `src/safety_governor.rs`, `src/watchdog.rs`,
`src/memory_manager.rs`) and proofs about the claims of its
natural-language specification.

External effects (process spawn, git, filesystem) are modelled as
oracles passed in explicitly; every function below mirrors the
control flow and the returned values of the corresponding Rust
function.
-/

namespace Pagi

/-! ## Byte and string helpers -/

/-- UTF-8 encoding of one Unicode scalar value, as the list of its bytes.
Mirrors Rust's `str::as_bytes` view of a `char`. -/
def utf8Bytes (c : Char) : List Nat :=
  let n := c.toNat
  if n < 0x80 then [n]
  else if n < 0x800 then [0xC0 + n / 64, 0x80 + n % 64]
  else if n < 0x10000 then [0xE0 + n / 4096, 0x80 + (n / 64) % 64, 0x80 + n % 64]
  else [0xF0 + n / 262144, 0x80 + (n / 4096) % 64, 0x80 + (n / 64) % 64, 0x80 + n % 64]

/-- The UTF-8 bytes of a string (Rust `str::as_bytes`). -/
def strBytes (s : String) : List Nat := s.data.flatMap utf8Bytes

/-- Rust `char::is_whitespace`: the Unicode `White_Space` property. -/
def rustIsWhitespace (c : Char) : Bool :=
  let n := c.toNat
  (0x9 ≤ n && n ≤ 0xD) || n = 0x20 || n = 0x85 || n = 0xA0 || n = 0x1680 ||
    (0x2000 ≤ n && n ≤ 0x200A) || n = 0x2028 || n = 0x2029 || n = 0x202F ||
    n = 0x205F || n = 0x3000

/-- Rust `str::trim` on a character list: drop leading and trailing
Unicode whitespace. -/
def rustTrimList (cs : List Char) : List Char :=
  ((cs.dropWhile rustIsWhitespace).reverse.dropWhile rustIsWhitespace).reverse

/-- Rust `str::trim` on a string. -/
def rustTrim (s : String) : String := String.mk (rustTrimList s.data)

/-- ASCII lowercasing of one character (identity beyond `A`–`Z`). -/
def asciiLowerChar (c : Char) : Char :=
  if 'A' ≤ c && c ≤ 'Z' then Char.ofNat (c.toNat + 32) else c

/-- ASCII lowercasing of a string.  Rust `str::to_lowercase` performs full
Unicode lowercasing, which coincides with this on ASCII input; every
comparison below is against a pure-ASCII literal. -/
def asciiLower (s : String) : String := String.mk (s.data.map asciiLowerChar)

/-- Rust `str::parse::<bool>()`: accepts exactly `"true"` and `"false"`. -/
def rustParseBool (s : String) : Option Bool :=
  if s = "true" then some true else if s = "false" then some false else none

/-- Rust `str::parse::<u32>()`: optional `+` sign, then one or more decimal
digits, value below `2^32`. -/
def rustParseU32 (s : String) : Option Nat :=
  let cs := if s.data.head? = some '+' then s.data.tail else s.data
  if cs.isEmpty || !cs.all Char.isDigit then none
  else
    let v := cs.foldl (fun acc c => acc * 10 + (c.toNat - 48)) 0
    if v < 2 ^ 32 then some v else none

/-- Rust `i32 as u32`: two's-complement reinterpretation of a signed
32-bit value as an unsigned one. -/
def i32ToU32 (d : Int) : Nat := (d % (2 : Int) ^ 32).toNat

/-! ## SHA-256 (the `sha2` crate's digest, FIPS 180-4) -/

/-- Truncation to 32 bits. -/
def w32 (n : Nat) : Nat := n % 2 ^ 32

/-- Right rotation of a 32-bit word. -/
def rotr32 (n x : Nat) : Nat := w32 ((x >>> n) ||| (x <<< (32 - n)))

def sha256ch (e f g : Nat) : Nat := (e &&& f) ^^^ ((e ^^^ 0xFFFFFFFF) &&& g)

def sha256maj (a b c : Nat) : Nat := (a &&& b) ^^^ (a &&& c) ^^^ (b &&& c)

def bigSigma0 (x : Nat) : Nat := rotr32 2 x ^^^ rotr32 13 x ^^^ rotr32 22 x

def bigSigma1 (x : Nat) : Nat := rotr32 6 x ^^^ rotr32 11 x ^^^ rotr32 25 x

def smallSigma0 (x : Nat) : Nat := rotr32 7 x ^^^ rotr32 18 x ^^^ (x >>> 3)

def smallSigma1 (x : Nat) : Nat := rotr32 17 x ^^^ rotr32 19 x ^^^ (x >>> 10)

/-- The 64 SHA-256 round constants. -/
def sha256k : List Nat :=
  [1116352408, 1899447441, 3049323471, 3921009573,
   961987163, 1508970993, 2453635748, 2870763221,
   3624381080, 310598401, 607225278, 1426881987,
   1925078388, 2162078206, 2614888103, 3248222580,
   3835390401, 4022224774, 264347078, 604807628,
   770255983, 1249150122, 1555081692, 1996064986,
   2554220882, 2821834349, 2952996808, 3210313671,
   3336571891, 3584528711, 113926993, 338241895,
   666307205, 773529912, 1294757372, 1396182291,
   1695183700, 1986661051, 2177026350, 2456956037,
   2730485921, 2820302411, 3259730800, 3345764771,
   3516065817, 3600352804, 4094571909, 275423344,
   430227734, 506948616, 659060556, 883997877,
   958139571, 1322822218, 1537002063, 1747873779,
   1955562222, 2024104815, 2227730452, 2361852424,
   2428436474, 2756734187, 3204031479, 3329325298]

/-- SHA-256 working state (eight 32-bit words). -/
structure Sha256Hs where
  a : Nat
  b : Nat
  c : Nat
  d : Nat
  e : Nat
  f : Nat
  g : Nat
  h : Nat
deriving Repr, DecidableEq

/-- SHA-256 initial hash value. -/
def sha256h0 : Sha256Hs :=
  ⟨1779033703, 3144134277, 1013904242, 2773480762,
   1359893119, 2600822924, 528734635, 1541459225⟩

/-- Big-endian bytes of a 64-bit value. -/
def be64 (n : Nat) : List Nat :=
  [(n >>> 56) &&& 0xFF, (n >>> 48) &&& 0xFF, (n >>> 40) &&& 0xFF,
   (n >>> 32) &&& 0xFF, (n >>> 24) &&& 0xFF, (n >>> 16) &&& 0xFF,
   (n >>> 8) &&& 0xFF, n &&& 0xFF]

/-- Big-endian bytes of a 32-bit word. -/
def be32 (n : Nat) : List Nat :=
  [(n >>> 24) &&& 0xFF, (n >>> 16) &&& 0xFF, (n >>> 8) &&& 0xFF, n &&& 0xFF]

/-- SHA-256 message padding: `0x80`, zeros to 56 mod 64, then the
big-endian 64-bit bit length. -/
def sha256pad (msg : List Nat) : List Nat :=
  let l := msg.length
  let z := (64 + 56 - (l + 1) % 64) % 64
  msg ++ [0x80] ++ List.replicate z 0 ++ be64 (8 * l)

/-- Group big-endian bytes into 32-bit words. -/
def bytesToWords : List Nat → List Nat
  | b0 :: b1 :: b2 :: b3 :: rest =>
      (((b0 * 256 + b1) * 256 + b2) * 256 + b3) :: bytesToWords rest
  | _ => []

/-- One extension step of the message schedule. -/
def scheduleStep (w : List Nat) : List Nat :=
  let n := w.length
  w ++ [w32 (smallSigma1 (w.getD (n - 2) 0) + w.getD (n - 7) 0 +
             smallSigma0 (w.getD (n - 15) 0) + w.getD (n - 16) 0)]

/-- Extend 16 schedule words to 64. -/
def schedule64 (w : List Nat) : List Nat :=
  (List.range 48).foldl (fun acc _ => scheduleStep acc) w

/-- One SHA-256 compression round. -/
def sha256round (s : Sha256Hs) (k w : Nat) : Sha256Hs :=
  let t1 := w32 (s.h + bigSigma1 s.e + sha256ch s.e s.f s.g + k + w)
  let t2 := w32 (bigSigma0 s.a + sha256maj s.a s.b s.c)
  ⟨w32 (t1 + t2), s.a, s.b, s.c, w32 (s.d + t1), s.e, s.f, s.g⟩

/-- Compress one 64-byte block into the running hash value. -/
def compressBlock (hs : Sha256Hs) (block : List Nat) : Sha256Hs :=
  let w := schedule64 (bytesToWords block)
  let s := (sha256k.zip w).foldl (fun s kw => sha256round s kw.1 kw.2) hs
  ⟨w32 (hs.a + s.a), w32 (hs.b + s.b), w32 (hs.c + s.c), w32 (hs.d + s.d),
   w32 (hs.e + s.e), w32 (hs.f + s.f), w32 (hs.g + s.g), w32 (hs.h + s.h)⟩

/-- Split a byte list into 64-byte chunks (fuel-indexed so that it
reduces inside the kernel; the fuel is the list length, which always
suffices because every step consumes at least one byte). -/
def chunk64F : Nat → List Nat → List (List Nat)
  | 0, _ => []
  | _, [] => []
  | n + 1, b :: bs => ((b :: bs).take 64) :: chunk64F n ((b :: bs).drop 64)

/-- Split a byte list into 64-byte chunks. -/
def chunk64 (l : List Nat) : List (List Nat) := chunk64F l.length l

/-- SHA-256 digest of a byte string, as its 32 digest bytes. -/
def sha256 (msg : List Nat) : List Nat :=
  let hs := (chunk64 (sha256pad msg)).foldl compressBlock sha256h0
  be32 hs.a ++ be32 hs.b ++ be32 hs.c ++ be32 hs.d ++
    be32 hs.e ++ be32 hs.f ++ be32 hs.g ++ be32 hs.h

/-- One lowercase hex digit. -/
def hexDigit (n : Nat) : Char :=
  if n < 10 then Char.ofNat (48 + n) else Char.ofNat (87 + n)

/-- Two lowercase hex digits of one byte. -/
def byteHex (b : Nat) : List Char := [hexDigit (b / 16), hexDigit (b % 16)]

/-- Lowercase hex rendering of a byte string; this is what Rust's
`format!("{:x}", digest)` produces for a `sha2` digest. -/
def hexLower (bs : List Nat) : String := String.mk (bs.flatMap byteHex)

/-! ## Allow-list loader and hash (`watchdog.rs`) -/

/-- The `Sha256` hasher of the `sha2` crate, seen through its streaming
interface: the state is the byte stream fed so far. -/
structure Sha256Stream where
  buf : List Nat
deriving Repr, DecidableEq

/-- `hasher.update(bytes)`: append to the stream. -/
def Sha256Stream.update (st : Sha256Stream) (bytes : List Nat) : Sha256Stream :=
  ⟨st.buf ++ bytes⟩

/-- `hasher.finalize()`: the SHA-256 digest of the whole stream. -/
def Sha256Stream.finalize (st : Sha256Stream) : List Nat := sha256 st.buf

/-- `watchdog.rs` `Watchdog::allow_list_hash`: feed each skill name's
bytes followed by one `b"\n"` into a fresh hasher; render the digest
with `format!("{:x}", _)`. -/
def allow_list_hash (skills : List String) : String :=
  let hasher := skills.foldl
    (fun h s => (h.update (strBytes s)).update [10]) (Sha256Stream.mk [])
  hexLower hasher.finalize

/-- Lexicographic comparison of scalar-value sequences.  Rust's `Ord`
for `String` compares UTF-8 bytes, and byte order agrees with
scalar-value (codepoint) order for valid UTF-8 — on ASCII names this is
ASCII order. -/
def charsLe : List Char → List Char → Bool
  | [], _ => true
  | _ :: _, [] => false
  | a :: as, b :: bs =>
      if a.toNat < b.toNat then true
      else if b.toNat < a.toNat then false
      else charsLe as bs

/-- The string order used by `Vec::<String>::sort()`. -/
def strLeProp (a b : String) : Prop := charsLe a.data b.data = true

instance : DecidableRel strLeProp := fun a b => by
  unfold strLeProp; infer_instance

/-- `watchdog.rs` `load_skills_allow_list`'s final `names.sort()`,
modelled as an insertion sort under the lexicographic order (equal keys
are equal strings, so stability is moot). -/
def canonSort (names : List String) : List String :=
  names.insertionSort strLeProp

/-! ## Configuration parsing

An environment variable is modelled as `Option String` (`none` = unset).
The crate parses booleans in five different ways; each parser below is
named for its source site. -/

/-- `watchdog.rs` `Watchdog::env_truthy` (used for
`PAGI_AUTO_COMMIT_SELF_PATCH` and `PAGI_AUTO_EVOLVE_SKILLS`):
trim, lowercase, then compare against `true|1|yes|y|on`. -/
def env_truthy (v : Option String) (dflt : Bool) : Bool :=
  match v with
  | none => dflt
  | some s =>
      let t := asciiLower (rustTrim s)
      t = "true" || t = "1" || t = "yes" || t = "y" || t = "on"

/-- `main.rs` `execute_action`'s parsing of `PAGI_MOCK_MODE` and
`PAGI_ALLOW_REAL_DISPATCH`:
`v.trim().eq_ignore_ascii_case("true") || v == "1"`. -/
def main_env_bool (v : Option String) : Bool :=
  match v with
  | none => false
  | some s => asciiLower (rustTrim s) = "true" || s = "1"

/-- `watchdog.rs` `apply_patch`/`simulate_error`'s parsing of
`PAGI_FORCE_TEST_FAIL` and `PAGI_SKIP_APPLY_TEST`:
`v.to_lowercase() == "true" || v == "1"`. -/
def lower_true_or_1 (v : Option String) : Bool :=
  match v with
  | none => false
  | some s => asciiLower s = "true" || s = "1"

/-- `safety_governor.rs` `SafetyGovernor::new`'s parsing of
`PAGI_HITL_GATE`: lowercased `true|1|yes` ⇒ on, `false|0|no` ⇒ off,
otherwise `s.parse::<bool>()`, and the default (on) when that fails. -/
def hitl_gate_env (v : Option String) : Bool :=
  match v with
  | none => true
  | some s =>
      let t := asciiLower s
      let parsed :=
        if t = "true" || t = "1" || t = "yes" then some true
        else if t = "false" || t = "0" || t = "no" then some false
        else rustParseBool s
      parsed.getD true

/-- `memory_manager.rs` `MemoryManager::new_async`'s parsing of
`PAGI_DISABLE_QDRANT`: `matches!(v.to_lowercase(), "1"|"true"|"yes"|"on")`. -/
def qdrant_disabled_env (v : Option String) : Bool :=
  match v with
  | none => false
  | some s =>
      let t := asciiLower s
      t = "1" || t = "true" || t = "yes" || t = "on"

/-- Modelled from the spec: "a value is truthy iff case-insensitive match
of `true|1|yes|on|y`" (§6, Boolean parsing). -/
def specTruthy (s : String) : Bool :=
  let t := asciiLower s
  t = "true" || t = "1" || t = "yes" || t = "on" || t = "y"

/-! ## Data model (`pagi.proto` shapes as used by the crate) -/

/-- Decidable equality of `Except` results, for evaluating outcomes on
concrete inputs. -/
instance {ε α : Type} [DecidableEq ε] [DecidableEq α] :
    DecidableEq (Except ε α) := fun a b =>
  match a, b with
  | .ok x, .ok y =>
      if h : x = y then isTrue (by rw [h])
      else isFalse (fun hc => by cases hc; exact h rfl)
  | .error x, .error y =>
      if h : x = y then isTrue (by rw [h])
      else isFalse (fun hc => by cases hc; exact h rfl)
  | .ok _, .error _ => isFalse (fun hc => by cases hc)
  | .error _, .ok _ => isFalse (fun hc => by cases hc)

/-- gRPC status classes used by the crate (`tonic::Status` constructors). -/
inductive StatusCode where
  | invalidArgument
  | permissionDenied
  | notFound
  | internal
  | failedPrecondition
deriving Repr, DecidableEq

/-- A `tonic::Status`: class plus message. -/
structure GrpcStatus where
  code : StatusCode
  message : String
deriving Repr, DecidableEq

/-- `RlmRequest` (reasoning request). `depth` is a signed 32-bit wire
integer, modelled as `Int` in `[-2^31, 2^31)`. -/
structure RlmRequest where
  sub_query : String
  sub_context : String
  depth : Int
deriving Repr, DecidableEq

/-- `ActionRequest`. -/
structure ActionRequest where
  skill_name : String
  params : List (String × String)
  depth : Int
  reasoning_id : String
  mock_mode : Bool
  allow_list_hash : String
  timeout_ms : Int
deriving Repr, DecidableEq

/-- `ActionResponse`. -/
structure ActionResponse where
  observation : String
  success : Bool
  error : String
deriving Repr, DecidableEq

/-- `ApplyRequest`. -/
structure ApplyRequest where
  patch_id : String
  approved : Bool
  component : String
  requires_hitl : Bool
deriving Repr, DecidableEq

/-- `ApplyResponse`. -/
structure ApplyResponse where
  success : Bool
  commit_hash : String
deriving Repr, DecidableEq

/-- `watchdog.rs` `PendingPatch`. -/
structure PendingPatch where
  proposed_code : String
  requires_hitl : Bool
  component : String
deriving Repr, DecidableEq

/-! ## Safety governor (`safety_governor.rs`) -/

/-- `SafetyGovernor` state: `max_depth : u32` (modelled as `Nat < 2^32`)
and the HITL toggle. -/
structure SafetyGovernor where
  max_depth : Nat
  hitl_gate : Bool
deriving Repr, DecidableEq

/-- `SafetyGovernor::new`: `PAGI_MAX_RECURSION_DEPTH` parsed as `u32`
with default 5, `PAGI_HITL_GATE` as in `hitl_gate_env`. -/
def SafetyGovernor.ofEnv (maxDepthVar hitlVar : Option String) : SafetyGovernor :=
  { max_depth := (maxDepthVar.bind rustParseU32).getD 5
    hitl_gate := hitl_gate_env hitlVar }

/-- The depth-rejection message shared by `guard_rlm` and
`execute_action`. -/
def depthMsg : String := "Recursion depth exceeded; circuit breaker activated"

/-- Whether `pat` occurs at the head of `l`. -/
def charsStartWith : List Char → List Char → Bool
  | [], _ => true
  | _ :: _, [] => false
  | p :: ps, c :: cs => p = c && charsStartWith ps cs

/-- Whether `pat` occurs as a contiguous run inside `l`
(Rust `str::contains` for a string pattern). -/
def charsContain (pat : List Char) : List Char → Bool
  | [] => pat.isEmpty
  | c :: cs => charsStartWith pat (c :: cs) || charsContain pat cs

/-- Rust `str::contains` with a `&str` pattern. -/
def strContains (hay pat : String) : Bool := charsContain pat.data hay.data

/-- `SafetyGovernor::sanitize`: `input.trim().chars().take(1024 * 10).collect()`. -/
def sanitize (input : String) : String :=
  String.mk ((rustTrimList input.data).take (1024 * 10))

/-- `SafetyGovernor::guard_rlm`: depth circuit breaker, sanitization of
both text fields, HITL denial of `patch_core` queries. -/
def guard_rlm (g : SafetyGovernor) (msg : RlmRequest) :
    Except GrpcStatus RlmRequest :=
  if i32ToU32 msg.depth > g.max_depth then
    .error ⟨.invalidArgument, depthMsg⟩
  else
    let sanitized_query := sanitize msg.sub_query
    let sanitized_context := sanitize msg.sub_context
    if g.hitl_gate && strContains msg.sub_query "patch_core" then
      .error ⟨.permissionDenied, "HITL approval required for core operations"⟩
    else
      .ok ⟨sanitized_query, sanitized_context, msg.depth⟩

/-! ## Action endpoint (`main.rs` `execute_action`) -/

/-- Outcome of `main.rs` `execute_action` before any real dispatch work:
either a status error, a mock response, or delegation to
`Watchdog::execute_action_real` with the request. -/
inductive ExecuteActionResult where
  | err (s : GrpcStatus)
  | mock (resp : ActionResponse)
  | realDispatch (req : ActionRequest)
deriving Repr, DecidableEq

/-- `main.rs` `execute_action`: depth circuit breaker mirroring
`guard_rlm`, then mock when the request or `PAGI_MOCK_MODE` asks for it,
real dispatch only when `PAGI_ALLOW_REAL_DISPATCH` parses truthy, and a
mock fallback otherwise. -/
def execute_action (g : SafetyGovernor) (mockVar allowVar : Option String)
    (req : ActionRequest) : ExecuteActionResult :=
  if i32ToU32 req.depth > g.max_depth then
    .err ⟨.invalidArgument, depthMsg⟩
  else if req.mock_mode || main_env_bool mockVar then
    .mock ⟨"Observation: mock executed skill=" ++ req.skill_name, true, ""⟩
  else if main_env_bool allowVar then
    .realDispatch req
  else
    .mock ⟨"Observation: mock executed skill=" ++ req.skill_name, true, ""⟩

/-! ## Real skill dispatcher (`watchdog.rs` `execute_action_real`) -/

/-- What happens to the spawned child process, as a function of the
timeout raced against it in the `tokio::select!`. -/
inductive ChildOutcome where
  /-- The `tokio::time::sleep(timeout_dur)` arm wins. -/
  | timeout
  /-- The child exits: captured stdout, stderr, whether the exit status
  is success, and the numeric exit code when present. -/
  | exited (stdout stderr : String) (exitSuccess : Bool) (exitCode : Option Int)
  /-- `wait_with_output` itself fails. -/
  | waitFail (msg : String)
deriving Repr, DecidableEq

/-- The external world seen by `execute_action_real`: the allow-list the
loader returns, the runner script's presence and display path, spawn
success, and the child's fate as a function of the effective timeout in
milliseconds. -/
structure DispatchEnv where
  allowList : List String
  runnerExists : Bool
  runnerPath : String
  spawnErr : Option String
  child : Int → ChildOutcome

/-- The effective timeout: `req.timeout_ms` when positive, else 5000 ms. -/
def effective_timeout (timeout_ms : Int) : Int :=
  if timeout_ms > 0 then timeout_ms else 5000

/-- Rust `format!("exit code {:?}", status.code())`'s argument rendering. -/
def fmtExitCode : Option Int → String
  | some n => "Some(" ++ toString n ++ ")"
  | none => "None"

/-- `watchdog.rs` `Watchdog::execute_action_real`: allow-list membership
check, allow-list hash integrity check, runner-script presence, then the
timed child run.  The append to the action log does not affect the
returned value and is not modelled. -/
def execute_action_real (env : DispatchEnv) (req : ActionRequest) :
    Except GrpcStatus ActionResponse :=
  if !env.allowList.contains req.skill_name then
    .error ⟨.permissionDenied, "Skill not in registry"⟩
  else
    if req.allow_list_hash ≠ ""
        ∧ req.allow_list_hash ≠ allow_list_hash env.allowList then
      .error ⟨.invalidArgument, "Allow-list mismatch"⟩
    else if !env.runnerExists then
      .error ⟨.notFound, "Runner script not found: " ++ env.runnerPath⟩
    else
      match env.spawnErr with
      | some e => .error ⟨.internal, "spawn python: " ++ e⟩
      | none =>
          match env.child (effective_timeout req.timeout_ms) with
          | .timeout => .ok ⟨"", false, "Execution timed out"⟩
          | .waitFail e => .error ⟨.internal, "wait_with_output: " ++ e⟩
          | .exited out err ok code =>
              let observation := rustTrim out
              let stderrT := rustTrim err
              let error_msg :=
                if ok then ""
                else if stderrT = "" then "exit code " ++ fmtExitCode code
                else stderrT
              .ok ⟨observation, ok, error_msg⟩

/-! ## Patch apply (`watchdog.rs` `apply_patch`) -/

/-- The pending-patch store (`DashMap<String, PendingPatch>`), as an
association list keyed by `patch_id`. -/
abbrev PatchStore := List (String × PendingPatch)

/-- Observable side effects of one `apply_patch` call, in order. -/
inductive FsEffect where
  /-- `std::fs::write` of the patch artifact into `<registry>/patches/`. -/
  | writePatch (relPath : String) (content : String)
  /-- The registry commit, with its message. -/
  | registryCommit (message : String)
  /-- The call into `propose_new_skill_from_patch`, with the persisted
  path handed to it and whether that best-effort call succeeded. -/
  | evolve (path : String) (ok : Bool)
deriving Repr, DecidableEq

/-- The external world seen by `apply_patch`: raw environment-variable
values, the approve-flag file's presence, and the outcomes of the test
run, the filesystem persist, the registry commit, and the auto-evolve
subroutine. -/
structure ApplyEnv where
  flagExists : Bool
  forceFailVar : Option String
  skipTestVar : Option String
  autoCommitVar : Option String
  autoEvolveVar : Option String
  testPasses : Bool
  persistErr : Option String
  commitResult : Except String String
  evolveOk : Bool
deriving Repr

/-- Result of one `apply_patch` call: the gRPC-level result, the
pending-patch store afterwards, and the side effects performed. -/
structure ApplyOutcome where
  result : Except GrpcStatus ApplyResponse
  store : PatchStore
  effects : List FsEffect
deriving Repr

/-- `watchdog.rs` `Watchdog::apply_patch`: lookup, HITL gate, forced
failure, tests, persist, optional auto-commit, optional auto-evolve,
removal from the pending store. -/
def apply_patch (store : PatchStore) (env : ApplyEnv) (req : ApplyRequest) :
    ApplyOutcome :=
  match store.lookup req.patch_id with
  | none => ⟨.error ⟨.notFound, "patch_id not found"⟩, store, []⟩
  | some pending =>
    let approved := req.approved || (pending.requires_hitl && env.flagExists)
    if pending.requires_hitl && !approved then
      ⟨.error ⟨.permissionDenied,
        "HITL approval required for this patch (set approved or create PAGI_APPROVE_FLAG file)"⟩,
       store, []⟩
    else if lower_true_or_1 env.forceFailVar then
      ⟨.error ⟨.internal, "Forced test failure for verification"⟩, store, []⟩
    else
      let skip_apply_test := lower_true_or_1 env.skipTestVar
      let test_ok := skip_apply_test || env.testPasses
      if !test_ok then
        ⟨.error ⟨.internal, "Patch test failed; apply aborted"⟩, store, []⟩
      else
        let ext := if pending.component = "rust_core" then "rs" else "py"
        let patch_file := "patches/patch_" ++ req.patch_id ++ "." ++ ext
        match env.persistErr with
        | some e => ⟨.error ⟨.internal, "write patch file: " ++ e⟩, store, []⟩
        | none =>
          let wrote := [FsEffect.writePatch patch_file pending.proposed_code]
          let auto_commit := env_truthy env.autoCommitVar true
          let commitStep : Except GrpcStatus (String × List FsEffect) :=
            if auto_commit then
              match env.commitResult with
              | .error e => .error ⟨.internal, e⟩
              | .ok hash =>
                  .ok (hash,
                    [.registryCommit
                      ("Self-patch apply " ++ req.patch_id ++ " for " ++ pending.component)])
            else
              .ok ("", [])
          match commitStep with
          | .error st => ⟨.error st, store, wrote⟩
          | .ok (commit_hash, committed) =>
            let auto_evolve := env_truthy env.autoEvolveVar false
            let evolved :=
              if auto_commit && auto_evolve && pending.component = "python_skill" then
                [FsEffect.evolve patch_file env.evolveOk]
              else []
            ⟨.ok ⟨true, commit_hash⟩,
             store.filter (fun kv => kv.1 ≠ req.patch_id),
             wrote ++ committed ++ evolved⟩

/-! ## Spec-side definitions

These follow the specification's words, to be compared against the
definitions above that were translated from the source. -/

/-- Modelled from the spec (§3, Allow-list): "the hex SHA-256 over the
canonical sequence, each name terminated by a single `\n` byte, with no
trailing data beyond the last `\n`" — the digest of the flat
concatenation of each name's UTF-8 bytes followed by one `0x0A` byte. -/
def specAllowListHash (names : List String) : String :=
  hexLower (sha256 ((names.map (fun n => strBytes n ++ [10])).flatten))

/-- Modelled from the claim's words: ASCII whitespace
(space, tab, line feed, carriage return, form feed). -/
def specAsciiWhitespace (c : Char) : Bool :=
  c = ' ' || c = '\t' || c = '\n' || c = '\r' || c.toNat = 0xC

/-- Modelled from the claim's words: trim ASCII whitespace at both ends,
then truncate to at most 10,240 Unicode scalar values. -/
def specSanitizeAscii (s : String) : String :=
  String.mk
    ((((s.data.dropWhile specAsciiWhitespace).reverse.dropWhile
        specAsciiWhitespace).reverse).take 10240)

/-! ## Theorems -/

/-- Characters with equal scalar values are equal. -/
theorem char_toNat_inj {a b : Char} (h : a.toNat = b.toNat) : a = b := by
  rw [← Char.ofNat_toNat a, ← Char.ofNat_toNat b, h]

/-- `charsLe` on cons cells, as strict-head or equal-head-and-tail. -/
theorem charsLe_cons_iff {a b : Char} {as bs : List Char} :
    charsLe (a :: as) (b :: bs) = true ↔
      a.toNat < b.toNat ∨ (a.toNat = b.toNat ∧ charsLe as bs = true) := by
  by_cases h1 : a.toNat < b.toNat
  · simp [charsLe, h1]
  · by_cases h2 : b.toNat < a.toNat
    · simp only [charsLe, if_neg h1, if_pos h2]
      constructor
      · intro h; cases h
      · intro h; omega
    · have he : a.toNat = b.toNat := by omega
      simp [charsLe, h1, h2, he]

/-- `charsLe` is total. -/
theorem charsLe_total : ∀ as bs, charsLe as bs = true ∨ charsLe bs as = true
  | [], _ => Or.inl rfl
  | _ :: _, [] => Or.inr rfl
  | a :: as, b :: bs => by
      rcases Nat.lt_trichotomy a.toNat b.toNat with h | h | h
      · exact Or.inl (charsLe_cons_iff.mpr (Or.inl h))
      · rcases charsLe_total as bs with h' | h'
        · exact Or.inl (charsLe_cons_iff.mpr (Or.inr ⟨h, h'⟩))
        · exact Or.inr (charsLe_cons_iff.mpr (Or.inr ⟨h.symm, h'⟩))
      · exact Or.inr (charsLe_cons_iff.mpr (Or.inl h))

/-- `charsLe` is transitive. -/
theorem charsLe_trans :
    ∀ as bs cs, charsLe as bs = true → charsLe bs cs = true →
      charsLe as cs = true
  | [], _, _, _, _ => rfl
  | _ :: _, [], _, h1, _ => by simp [charsLe] at h1
  | _ :: _, _ :: _, [], _, h2 => by simp [charsLe] at h2
  | a :: as, b :: bs, c :: cs, h1, h2 => by
      rw [charsLe_cons_iff] at h1 h2 ⊢
      rcases h1 with h1 | ⟨h1e, h1r⟩ <;> rcases h2 with h2 | ⟨h2e, h2r⟩
      · exact Or.inl (by omega)
      · exact Or.inl (by omega)
      · exact Or.inl (by omega)
      · exact Or.inr ⟨by omega, charsLe_trans as bs cs h1r h2r⟩

/-- `charsLe` is antisymmetric. -/
theorem charsLe_antisymm :
    ∀ as bs, charsLe as bs = true → charsLe bs as = true → as = bs
  | [], [], _, _ => rfl
  | [], _ :: _, _, h2 => by simp [charsLe] at h2
  | _ :: _, [], h1, _ => by simp [charsLe] at h1
  | a :: as, b :: bs, h1, h2 => by
      rw [charsLe_cons_iff] at h1 h2
      rcases h1 with h1 | ⟨h1e, h1r⟩
      · rcases h2 with h2 | ⟨h2e, _⟩ <;> omega
      · rcases h2 with h2 | ⟨h2e, h2r⟩
        · omega
        · rw [char_toNat_inj h1e, charsLe_antisymm as bs h1r h2r]

instance : IsTotal String strLeProp :=
  ⟨fun a b => charsLe_total a.data b.data⟩

instance : IsTrans String strLeProp :=
  ⟨fun a b c => charsLe_trans a.data b.data c.data⟩

instance : IsAntisymm String strLeProp :=
  ⟨fun a b h1 h2 => String.ext (charsLe_antisymm a.data b.data h1 h2)⟩

/-- The hasher's stream after feeding each name and a newline is the flat
concatenation of `name-bytes ++ [0x0A]` runs. -/
theorem hash_stream_buf (l : List String) (acc : List Nat) :
    (l.foldl (fun h s => (h.update (strBytes s)).update [10])
        (Sha256Stream.mk acc)).buf
      = acc ++ (l.map (fun s => strBytes s ++ [10])).flatten := by
  induction l generalizing acc with
  | nil => simp
  | cons s l ih =>
      have hstep : ((Sha256Stream.mk acc).update (strBytes s)).update [10]
          = Sha256Stream.mk (acc ++ strBytes s ++ [10]) := rfl
      rw [List.foldl_cons, hstep, ih]
      simp [List.append_assoc]

/-- The incremental allow-list hash equals the digest of the flat
canonical byte string, for any name list. -/
theorem allow_list_hash_eq_spec (names : List String) :
    allow_list_hash names = specAllowListHash names := by
  show hexLower (sha256 ((names.foldl
      (fun h s => (h.update (strBytes s)).update [10])
      (Sha256Stream.mk [])).buf)) = _
  rw [hash_stream_buf]
  simp [specAllowListHash]

/-- `canonSort` is invariant under permutation of its input. -/
theorem canonSort_perm_inv {names names' : List String}
    (h : names.Perm names') : canonSort names = canonSort names' := by
  unfold canonSort
  refine List.eq_of_perm_of_sorted ?_ (List.sorted_insertionSort _ _)
    (List.sorted_insertionSort _ _)
  exact ((List.perm_insertionSort _ _).trans h).trans
    (List.perm_insertionSort _ _).symm

/-- C4: for every list of skill names, the allow-list hash over the
canonically (ASCII-ascending) sorted names is exactly the lowercase hex
SHA-256 digest of the concatenation of each sorted name's UTF-8 bytes
followed by one `0x0A` byte, with nothing after the last `0x0A`; and
computations over the same name set (any permutation) yield bit-identical
hashes. -/
theorem allow_list_hash_canonical (names : List String) :
    allow_list_hash (canonSort names) = specAllowListHash (canonSort names)
    ∧ ∀ names' : List String, names.Perm names' →
        allow_list_hash (canonSort names) = allow_list_hash (canonSort names') := by
  refine ⟨allow_list_hash_eq_spec _, fun names' h => ?_⟩
  rw [canonSort_perm_inv h]

/-- C2: the real dispatcher rejects skills outside the allow-list with
permission-denied "Skill not in registry"; a non-empty client hash that
differs from the computed allow-list hash fails with invalid-argument
"Allow-list mismatch"; an empty client hash never produces the mismatch
error. -/
theorem execute_action_real_gatekeeping (env : DispatchEnv)
    (req : ActionRequest) :
    (req.skill_name ∉ env.allowList →
      execute_action_real env req
        = .error ⟨.permissionDenied, "Skill not in registry"⟩)
    ∧ (req.skill_name ∈ env.allowList → req.allow_list_hash ≠ "" →
        req.allow_list_hash ≠ allow_list_hash env.allowList →
        execute_action_real env req
          = .error ⟨.invalidArgument, "Allow-list mismatch"⟩)
    ∧ (req.allow_list_hash = "" →
        execute_action_real env req
          ≠ .error ⟨.invalidArgument, "Allow-list mismatch"⟩) := by
  refine ⟨fun h => ?_, fun hm h1 h2 => ?_, fun h0 => ?_⟩
  · simp [execute_action_real, h]
  · simp [execute_action_real, hm, h1, h2]
  · unfold execute_action_real
    split
    · simp
    · rw [if_neg (by simp [h0])]
      split
      · simp
      · split
        · simp
        · split <;> simp

set_option maxRecDepth 1000000 in
/-- Witness for C2: all three clauses at concrete inputs — an unknown
skill, a wrong non-empty hash against the computed hash of
`["peek_file"]`, and an empty hash. -/
theorem execute_action_real_gatekeeping_witness :
    execute_action_real ⟨["peek_file"], true, "r", none, fun _ => .timeout⟩
        ⟨"ghost", [], 0, "r1", false, "", 0⟩
      = .error ⟨.permissionDenied, "Skill not in registry"⟩
    ∧ execute_action_real ⟨["peek_file"], true, "r", none, fun _ => .timeout⟩
        ⟨"peek_file", [], 0, "r1", false, "deadbeef", 0⟩
      = .error ⟨.invalidArgument, "Allow-list mismatch"⟩
    ∧ execute_action_real ⟨["peek_file"], true, "r", none, fun _ => .timeout⟩
        ⟨"peek_file", [], 0, "r1", false, "", 0⟩
      ≠ .error ⟨.invalidArgument, "Allow-list mismatch"⟩ :=
  ⟨(execute_action_real_gatekeeping _ _).1 (by decide),
   (execute_action_real_gatekeeping _ _).2.1 (by decide) (by decide)
     (by decide),
   (execute_action_real_gatekeeping _ _).2.2 rfl⟩

/-- C3: when the pending patch requires HITL, the request is not
approved, and the approve-flag file is absent, `apply_patch` fails with
permission-denied, performs no filesystem or git effect, and leaves the
pending store unchanged (the patch is still pending). -/
theorem apply_patch_hitl_gate (store : PatchStore) (env : ApplyEnv)
    (req : ApplyRequest) (pending : PendingPatch)
    (hlook : store.lookup req.patch_id = some pending)
    (hh : pending.requires_hitl = true)
    (ha : req.approved = false)
    (hf : env.flagExists = false) :
    apply_patch store env req =
      ⟨.error ⟨.permissionDenied,
        "HITL approval required for this patch (set approved or create PAGI_APPROVE_FLAG file)"⟩,
       store, []⟩
    ∧ (apply_patch store env req).store.lookup req.patch_id = some pending := by
  have hmain : apply_patch store env req =
      ⟨.error ⟨.permissionDenied,
        "HITL approval required for this patch (set approved or create PAGI_APPROVE_FLAG file)"⟩,
       store, []⟩ := by
    unfold apply_patch
    rw [hlook]
    simp [hh, ha, hf]
  exact ⟨hmain, by rw [hmain]; exact hlook⟩

/-- Witness for C3: a concrete HITL-gated pending patch, an unapproved
request, no flag file. -/
theorem apply_patch_hitl_gate_witness :
    apply_patch [("p1", ⟨"code", true, "rust_core"⟩)]
        ⟨false, none, none, none, none, true, none, .ok "h", true⟩
        ⟨"p1", false, "rust_core", true⟩ =
      ⟨.error ⟨.permissionDenied,
        "HITL approval required for this patch (set approved or create PAGI_APPROVE_FLAG file)"⟩,
       [("p1", ⟨"code", true, "rust_core"⟩)], []⟩ :=
  (apply_patch_hitl_gate [("p1", ⟨"code", true, "rust_core"⟩)]
    ⟨false, none, none, none, none, true, none, .ok "h", true⟩
    ⟨"p1", false, "rust_core", true⟩ ⟨"code", true, "rust_core"⟩
    rfl rfl rfl rfl).1

/-- C5: a zero `timeout_ms` selects the 5000 ms default and a positive
one is used as-is; when the timer wins the race the dispatcher still
returns Ok, with `success=false`, `error="Execution timed out"` and an
empty observation. -/
theorem dispatch_timeout_semantics :
    effective_timeout 0 = 5000
    ∧ (∀ t : Int, 0 < t → effective_timeout t = t)
    ∧ ∀ (env : DispatchEnv) (req : ActionRequest),
        req.skill_name ∈ env.allowList →
        (req.allow_list_hash = ""
          ∨ req.allow_list_hash = allow_list_hash env.allowList) →
        env.runnerExists = true →
        env.spawnErr = none →
        env.child (effective_timeout req.timeout_ms) = .timeout →
        execute_action_real env req = .ok ⟨"", false, "Execution timed out"⟩ := by
  refine ⟨rfl, fun t ht => by simp [effective_timeout, ht],
    fun env req hc hh hr hs ht => ?_⟩
  rcases hh with hh | hh <;>
    simp [execute_action_real, hc, hh, hr, hs, ht]

/-- Witness for C5: a sleeping child behind a 50 ms timeout. -/
theorem dispatch_timeout_semantics_witness :
    effective_timeout 0 = 5000
    ∧ effective_timeout 50 = 50
    ∧ execute_action_real ⟨["sleep"], true, "r", none, fun _ => .timeout⟩
        ⟨"sleep", [], 0, "r1", false, "", 50⟩
      = .ok ⟨"", false, "Execution timed out"⟩ :=
  ⟨dispatch_timeout_semantics.1,
   dispatch_timeout_semantics.2.1 50 (by decide),
   dispatch_timeout_semantics.2.2 ⟨["sleep"], true, "r", none, fun _ => .timeout⟩
     ⟨"sleep", [], 0, "r1", false, "", 50⟩ (by decide) (Or.inl rfl) rfl rfl rfl⟩

/-- C6: a depth equal to `max_depth` (default 5) passes the depth check
of both the reasoning guard and the action endpoint, and a depth of
`max_depth + 1` or more is rejected with invalid-argument by both. -/
theorem depth_boundary_admission :
    (∀ hitlVar, (SafetyGovernor.ofEnv none hitlVar).max_depth = 5)
    ∧ (∀ (g : SafetyGovernor) (m : RlmRequest),
        m.depth = (g.max_depth : Int) → (g.max_depth : Int) < 2 ^ 31 →
        guard_rlm g m ≠ .error ⟨.invalidArgument, depthMsg⟩)
    ∧ (∀ (g : SafetyGovernor) (m : RlmRequest),
        (g.max_depth : Int) + 1 ≤ m.depth → m.depth < 2 ^ 31 →
        guard_rlm g m = .error ⟨.invalidArgument, depthMsg⟩)
    ∧ (∀ (g : SafetyGovernor) (mv av : Option String) (a : ActionRequest),
        a.depth = (g.max_depth : Int) → (g.max_depth : Int) < 2 ^ 31 →
        execute_action g mv av a ≠ .err ⟨.invalidArgument, depthMsg⟩)
    ∧ (∀ (g : SafetyGovernor) (mv av : Option String) (a : ActionRequest),
        (g.max_depth : Int) + 1 ≤ a.depth → a.depth < 2 ^ 31 →
        execute_action g mv av a = .err ⟨.invalidArgument, depthMsg⟩) := by
  refine ⟨fun hv => rfl, fun g m hd hb => ?_, fun g m hd hb => ?_,
    fun g mv av a hd hb => ?_, fun g mv av a hd hb => ?_⟩
  · have hle : ¬ i32ToU32 m.depth > g.max_depth := by
      unfold i32ToU32; omega
    unfold guard_rlm
    rw [if_neg hle]
    split <;> simp
  · have hgt : i32ToU32 m.depth > g.max_depth := by
      unfold i32ToU32; omega
    unfold guard_rlm
    rw [if_pos hgt]
  · have hle : ¬ i32ToU32 a.depth > g.max_depth := by
      unfold i32ToU32; omega
    unfold execute_action
    rw [if_neg hle]
    split
    · simp
    · split <;> simp
  · have hgt : i32ToU32 a.depth > g.max_depth := by
      unfold i32ToU32; omega
    unfold execute_action
    rw [if_pos hgt]

/-- Witness for C6: the default governor admits depth 5 and rejects
depth 6, in both endpoints. -/
theorem depth_boundary_admission_witness :
    (SafetyGovernor.ofEnv none none).max_depth = 5
    ∧ guard_rlm ⟨5, true⟩ ⟨"q", "c", 5⟩
        ≠ .error ⟨.invalidArgument, depthMsg⟩
    ∧ guard_rlm ⟨5, true⟩ ⟨"q", "c", 6⟩
        = .error ⟨.invalidArgument, depthMsg⟩
    ∧ execute_action ⟨5, true⟩ none none ⟨"s", [], 5, "r", true, "", 0⟩
        ≠ .err ⟨.invalidArgument, depthMsg⟩
    ∧ execute_action ⟨5, true⟩ none none ⟨"s", [], 6, "r", true, "", 0⟩
        = .err ⟨.invalidArgument, depthMsg⟩ :=
  ⟨depth_boundary_admission.1 none,
   depth_boundary_admission.2.1 ⟨5, true⟩ ⟨"q", "c", 5⟩ (by decide) (by decide),
   depth_boundary_admission.2.2.1 ⟨5, true⟩ ⟨"q", "c", 6⟩ (by decide) (by decide),
   depth_boundary_admission.2.2.2.1 ⟨5, true⟩ none none
     ⟨"s", [], 5, "r", true, "", 0⟩ (by decide) (by decide),
   depth_boundary_admission.2.2.2.2 ⟨5, true⟩ none none
     ⟨"s", [], 6, "r", true, "", 0⟩ (by decide) (by decide)⟩

/-- C10: a negative wire depth, reinterpreted as a `u32` by the
`depth as u32` cast, exceeds any `max_depth` below `2^31`, so both the
reasoning guard and the action endpoint reject it with invalid-argument. -/
theorem negative_depth_rejected (g : SafetyGovernor) (m : RlmRequest)
    (mv av : Option String) (a : ActionRequest)
    (hg : g.max_depth < 2 ^ 31)
    (hm1 : m.depth < 0) (hm2 : -(2 ^ 31) ≤ m.depth)
    (ha1 : a.depth < 0) (ha2 : -(2 ^ 31) ≤ a.depth) :
    guard_rlm g m = .error ⟨.invalidArgument, depthMsg⟩
    ∧ execute_action g mv av a = .err ⟨.invalidArgument, depthMsg⟩ := by
  constructor
  · have hgt : i32ToU32 m.depth > g.max_depth := by
      unfold i32ToU32; omega
    unfold guard_rlm
    rw [if_pos hgt]
  · have hgt : i32ToU32 a.depth > g.max_depth := by
      unfold i32ToU32; omega
    unfold execute_action
    rw [if_pos hgt]

/-- Witness for C10: depth −1 under the default limit 5. -/
theorem negative_depth_rejected_witness :
    guard_rlm ⟨5, true⟩ ⟨"q", "c", -1⟩
      = .error ⟨.invalidArgument, depthMsg⟩
    ∧ execute_action ⟨5, true⟩ none none ⟨"s", [], -1, "r", true, "", 0⟩
      = .err ⟨.invalidArgument, depthMsg⟩ :=
  negative_depth_rejected ⟨5, true⟩ ⟨"q", "c", -1⟩ none none
    ⟨"s", [], -1, "r", true, "", 0⟩ (by decide) (by decide) (by decide)
    (by decide) (by decide)

/-- Witness for C4: the hash of the sorted two-name set, compared against
the spec digest and against the hash computed from a permuted input. -/
theorem allow_list_hash_canonical_witness :
    allow_list_hash (canonSort ["b", "a"])
        = specAllowListHash (canonSort ["b", "a"])
      ∧ allow_list_hash (canonSort ["b", "a"])
        = allow_list_hash (canonSort ["a", "b"]) :=
  ⟨(allow_list_hash_canonical ["b", "a"]).1,
   (allow_list_hash_canonical ["b", "a"]).2 ["a", "b"] (by decide)⟩

/-- Counterexample to C1 as stated: `"yes"` matches the spec's truthy
rule, so with the mock-mode variable set to `"yes"` the claim promises a
mock response; but `main.rs` parses `"yes"` as false, and with the
allow-real-dispatch variable set to `"true"` the endpoint hands the
request to the real dispatcher instead. -/
theorem execute_action_mock_claim_cex :
    specTruthy "yes" = true
    ∧ execute_action ⟨5, true⟩ (some "yes") (some "true")
        ⟨"peek_file", [], 0, "r1", false, "", 0⟩
      = .realDispatch ⟨"peek_file", [], 0, "r1", false, "", 0⟩ := by
  decide

/-- C1 (amended): for an admitted depth, if the request sets
`mock_mode`, or the mock-mode variable parses truthy under `main.rs`'s
rule (trimmed case-insensitive `"true"`, or exactly `"1"`), or the
allow-real-dispatch variable does not parse truthy under that same
rule, then `execute_action` returns the mock response
`"Observation: mock executed skill=<name>"` with `success=true` and
empty error, and never reaches the real dispatcher. -/
theorem execute_action_mock_paths (g : SafetyGovernor)
    (mockVar allowVar : Option String) (req : ActionRequest)
    (h0 : 0 ≤ req.depth) (h1 : req.depth ≤ (g.max_depth : Int))
    (h2 : req.depth < 2 ^ 31)
    (hm : req.mock_mode = true ∨ main_env_bool mockVar = true
        ∨ main_env_bool allowVar = false) :
    execute_action g mockVar allowVar req =
      .mock ⟨"Observation: mock executed skill=" ++ req.skill_name,
        true, ""⟩ := by
  have hle : ¬ i32ToU32 req.depth > g.max_depth := by
    unfold i32ToU32; omega
  unfold execute_action
  rw [if_neg hle]
  rcases hm with hm | hm | hm
  · simp [hm]
  · simp [hm]
  · by_cases hc : (req.mock_mode || main_env_bool mockVar) = true <;>
      simp [hc, hm]

/-- Witness for C1: real dispatch disabled (both variables unset), so a
plain request is answered by the mock path. -/
theorem execute_action_mock_paths_witness :
    execute_action ⟨5, true⟩ none none ⟨"ping", [], 0, "r1", false, "", 0⟩
      = .mock ⟨"Observation: mock executed skill=ping", true, ""⟩ :=
  execute_action_mock_paths ⟨5, true⟩ none none
    ⟨"ping", [], 0, "r1", false, "", 0⟩ (by decide) (by decide) (by decide)
    (Or.inr (Or.inr (by decide)))

/-- Counterexample to C7 as stated: a no-break space (U+00A0) is not
ASCII whitespace, so the claim predicts it survives; Rust's `str::trim`
strips Unicode whitespace, and the guard returns the field without it. -/
theorem guard_rlm_ascii_trim_cex :
    guard_rlm ⟨5, true⟩ ⟨"\u00A0x", "", 0⟩ = .ok ⟨"x", "", 0⟩
    ∧ specSanitizeAscii "\u00A0x" = "\u00A0x"
    ∧ ("x" : String) ≠ "\u00A0x" := by
  decide

/-- C7 (amended): for every admitted reasoning request, the guard
returns the text fields with Unicode whitespace (Rust
`char::is_whitespace`) trimmed at both ends and then truncated to at
most 10,240 scalar values; a field of exactly 10,240 characters after
trimming is unchanged, and one of 10,241 characters is cut to 10,240. -/
theorem guard_rlm_sanitization :
    (∀ (g : SafetyGovernor) (m : RlmRequest),
        ¬ i32ToU32 m.depth > g.max_depth →
        (g.hitl_gate && strContains m.sub_query "patch_core") = false →
        guard_rlm g m = .ok
          ⟨String.mk ((rustTrimList m.sub_query.data).take 10240),
           String.mk ((rustTrimList m.sub_context.data).take 10240),
           m.depth⟩)
    ∧ (∀ s : String, (rustTrimList s.data).length = 10240 →
        sanitize s = String.mk (rustTrimList s.data))
    ∧ (∀ s : String, (rustTrimList s.data).length = 10241 →
        (sanitize s).data = (rustTrimList s.data).take 10240
        ∧ (sanitize s).data.length = 10240) := by
  refine ⟨fun g m hd hh => ?_, fun s hlen => ?_, fun s hlen => ?_⟩
  · unfold guard_rlm
    rw [if_neg hd]
    simp [hh, sanitize]
  · unfold sanitize
    rw [List.take_of_length_le (by omega)]
  · refine ⟨rfl, ?_⟩
    show ((rustTrimList s.data).take (1024 * 10)).length = 10240
    rw [List.length_take, hlen]
    omega

/-- A run of `'a'`s has no whitespace to trim. -/
theorem rustTrimList_replicate (n : Nat) :
    rustTrimList (List.replicate n 'a') = List.replicate n 'a' := by
  have h : ∀ m, List.dropWhile rustIsWhitespace (List.replicate m 'a')
      = List.replicate m 'a' := by
    intro m
    cases m with
    | zero => rfl
    | succ k =>
        rw [List.replicate_succ, List.dropWhile_cons_of_neg (by decide)]
  unfold rustTrimList
  rw [h, List.reverse_replicate, h, List.reverse_replicate]

/-- Witness for C7: a small trimmed field, a field of exactly 10,240
characters left intact, and one of 10,241 characters truncated. -/
theorem guard_rlm_sanitization_witness :
    guard_rlm ⟨5, true⟩ ⟨"  hi  ", " c ", 0⟩ = .ok ⟨"hi", "c", 0⟩
    ∧ sanitize (String.mk (List.replicate 10240 'a'))
        = String.mk (List.replicate 10240 'a')
    ∧ (sanitize (String.mk (List.replicate 10241 'a'))).data.length
        = 10240 := by
  refine ⟨?_, ?_, ?_⟩
  · rw [guard_rlm_sanitization.1 ⟨5, true⟩ ⟨"  hi  ", " c ", 0⟩
      (by decide) (by decide)]
    decide
  · rw [guard_rlm_sanitization.2.1 (String.mk (List.replicate 10240 'a'))
      (by rw [show (String.mk (List.replicate 10240 'a')).data
              = List.replicate 10240 'a' from rfl, rustTrimList_replicate,
            List.length_replicate])]
    rw [show (String.mk (List.replicate 10240 'a')).data
        = List.replicate 10240 'a' from rfl, rustTrimList_replicate]
  · exact (guard_rlm_sanitization.2.2 (String.mk (List.replicate 10241 'a'))
      (by rw [show (String.mk (List.replicate 10241 'a')).data
              = List.replicate 10241 'a' from rfl, rustTrimList_replicate,
            List.length_replicate])).2

/-- Counterexample to C9 as stated: `"yes"` and `"y"` match the spec's
truthy rule but are parsed falsy by the skip-apply-test/force-fail
parser, the mock/allow-real parser, and the memory-disable parser
respectively; and the HITL-gate parser maps an unrecognized value to
true (its default), not to falsy. -/
theorem env_parsing_claim_cex :
    specTruthy "yes" = true
    ∧ lower_true_or_1 (some "yes") = false
    ∧ main_env_bool (some "yes") = false
    ∧ specTruthy "y" = true
    ∧ qdrant_disabled_env (some "y") = false
    ∧ specTruthy "banana" = false
    ∧ hitl_gate_env (some "banana") = true := by
  decide

/-- C9 (amended): auto-commit and auto-evolve follow the spec's truthy
rule on the trimmed value; mock-mode and allow-real-dispatch accept only
a trimmed case-insensitive `"true"` or the exact string `"1"`;
force-test-failure and skip-apply-test accept only a lowercased
`"true"` or exact `"1"`; both of those accept only spec-truthy values;
the HITL gate maps a case-insensitive `true|1|yes` to on and
`false|0|no` to off, and falls back to its default (on) for any other
value; memory-disable is truthy exactly on spec-truthy values other
than `"y"`. -/
theorem env_parsing_rules :
    (∀ s d, env_truthy (some s) d = specTruthy (rustTrim s))
    ∧ (∀ d, env_truthy none d = d)
    ∧ (∀ s, main_env_bool (some s) = true ↔
        (asciiLower (rustTrim s) = "true" ∨ s = "1"))
    ∧ (∀ s, main_env_bool (some s) = true → specTruthy (rustTrim s) = true)
    ∧ (∀ s, lower_true_or_1 (some s) = true ↔
        (asciiLower s = "true" ∨ s = "1"))
    ∧ (∀ s, lower_true_or_1 (some s) = true → specTruthy s = true)
    ∧ (∀ s, asciiLower s ≠ "true" → asciiLower s ≠ "1" →
        asciiLower s ≠ "yes" → asciiLower s ≠ "false" →
        asciiLower s ≠ "0" → asciiLower s ≠ "no" →
        hitl_gate_env (some s) = true)
    ∧ (∀ s, qdrant_disabled_env (some s) = true ↔
        (specTruthy s = true ∧ asciiLower s ≠ "y"))
    ∧ (∀ s, asciiLower s = "true" ∨ asciiLower s = "1"
        ∨ asciiLower s = "yes" → hitl_gate_env (some s) = true)
    ∧ (∀ s, asciiLower s = "false" ∨ asciiLower s = "0"
        ∨ asciiLower s = "no" → hitl_gate_env (some s) = false) := by
  refine ⟨fun s d => ?_, fun d => rfl, fun s => ?_, fun s h => ?_,
    fun s => ?_, fun s h => ?_, fun s h1 h2 h3 h4 h5 h6 => ?_, fun s => ?_,
    fun s h => ?_, fun s h => ?_⟩
  · simp only [env_truthy, specTruthy]
    generalize asciiLower (rustTrim s) = t
    by_cases e1 : t = "true" <;> by_cases e2 : t = "1" <;>
      by_cases e3 : t = "yes" <;> by_cases e4 : t = "y" <;>
      by_cases e5 : t = "on" <;> simp [e1, e2, e3, e4, e5]
  · simp [main_env_bool]
  · simp only [main_env_bool, Bool.or_eq_true, decide_eq_true_eq] at h
    rcases h with h | h
    · simp [specTruthy, h]
    · subst h; decide
  · simp [lower_true_or_1]
  · simp only [lower_true_or_1, Bool.or_eq_true, decide_eq_true_eq] at h
    rcases h with h | h
    · simp [specTruthy, h]
    · subst h; decide
  · have hs1 : s ≠ "true" := fun hq => h1 (by subst hq; decide)
    have hs2 : s ≠ "false" := fun hq => h4 (by subst hq; decide)
    simp [hitl_gate_env, rustParseBool, h1, h2, h3, h4, h5, h6, hs1, hs2]
  · simp only [qdrant_disabled_env, specTruthy]
    generalize asciiLower s = t
    by_cases e1 : t = "1" <;> by_cases e2 : t = "true" <;>
      by_cases e3 : t = "yes" <;> by_cases e4 : t = "on" <;>
      by_cases e5 : t = "y" <;> simp_all
  · rcases h with h | h | h <;> simp only [hitl_gate_env, h] <;> rfl
  · rcases h with h | h | h <;> simp only [hitl_gate_env, h] <;> rfl

/-- Counterexample to C8 as stated: `"js_skill"` is not `"rust_core"`,
so per the claim it denotes the worker side and a successful, committed
apply with auto-evolve enabled should invoke auto-evolution; the code
compares against the literal `"python_skill"` and performs no evolve
call (the effect list holds only the file write and the commit). -/
theorem apply_patch_evolve_claim_cex :
    apply_patch [("id1", ⟨"code", false, "js_skill"⟩)]
        ⟨false, none, some "true", some "true", some "true", false, none,
         .ok "ffff", true⟩
        ⟨"id1", true, "js_skill", false⟩
      = ⟨.ok ⟨true, "ffff"⟩, [],
         [.writePatch "patches/patch_id1.py" "code",
          .registryCommit "Self-patch apply id1 for js_skill"]⟩
    ∧ env_truthy (some "true") true = true
    ∧ env_truthy (some "true") false = true
    ∧ ("js_skill" : String) ≠ "rust_core" :=
  ⟨rfl, by decide, by decide, by decide⟩

/-- C8 (amended): a successful apply performs the auto-evolve call iff
auto-commit is enabled (and therefore succeeded), auto-evolve is
enabled, and the pending component is exactly `"python_skill"`; a failed
apply never performs it; and the auto-evolve outcome influences neither
the returned result nor the pending store. -/
theorem apply_patch_evolve_gate (store : PatchStore) (env : ApplyEnv)
    (req : ApplyRequest) :
    (∀ pending, store.lookup req.patch_id = some pending →
      ∀ r, (apply_patch store env req).result = .ok r →
        ((∃ p b, FsEffect.evolve p b ∈ (apply_patch store env req).effects)
          ↔ (env_truthy env.autoCommitVar true = true
              ∧ env_truthy env.autoEvolveVar false = true
              ∧ pending.component = "python_skill")))
    ∧ (∀ st, (apply_patch store env req).result = .error st →
        ∀ p b, FsEffect.evolve p b ∉ (apply_patch store env req).effects)
    ∧ (∀ bo,
        (apply_patch store { env with evolveOk := bo } req).result
          = (apply_patch store env req).result
        ∧ (apply_patch store { env with evolveOk := bo } req).store
          = (apply_patch store env req).store) := by
  refine ⟨fun pending hlook r hok => ?_, fun st herr p b hmem => ?_,
    fun bo => ?_⟩
  · by_cases h1 : pending.requires_hitl = true ∧ req.approved = false
        ∧ (pending.requires_hitl = false ∨ env.flagExists = false)
    · obtain ⟨hrh, hap, hor⟩ := h1
      have hflag : env.flagExists = false := by
        rcases hor with h | h
        · rw [hrh] at h; cases h
        · exact h
      exfalso; simp [apply_patch, hlook, hrh, hap, hflag] at hok
    · by_cases h2 : lower_true_or_1 env.forceFailVar = true
      · exfalso; simp [apply_patch, hlook, h1, h2] at hok
      · by_cases h3 : lower_true_or_1 env.skipTestVar = false
            ∧ env.testPasses = false
        · exfalso; simp [apply_patch, hlook, h1, h2, h3] at hok
        · cases hp : env.persistErr with
          | some e => exfalso; simp [apply_patch, hlook, h1, h2, h3, hp] at hok
          | none =>
            by_cases h4 : env_truthy env.autoCommitVar true = true
            · cases hcr : env.commitResult with
              | error e =>
                  exfalso
                  simp [apply_patch, hlook, h1, h2, h3, hp, h4, hcr] at hok
              | ok hash =>
                  by_cases h5 : env_truthy env.autoEvolveVar false = true
                  · by_cases h6 : pending.component = "python_skill"
                    · simp [apply_patch, hlook, h1, h2, h3, hp, h4, hcr, h5, h6]
                    · simp [apply_patch, hlook, h1, h2, h3, hp, h4, hcr, h5, h6]
                  · simp [apply_patch, hlook, h1, h2, h3, hp, h4, hcr, h5]
            · simp [apply_patch, hlook, h1, h2, h3, hp, h4]
  · cases hlook : store.lookup req.patch_id with
    | none => simp [apply_patch, hlook] at hmem
    | some pending =>
      by_cases h1 : pending.requires_hitl = true ∧ req.approved = false
          ∧ (pending.requires_hitl = false ∨ env.flagExists = false)
      · obtain ⟨hrh, hap, hor⟩ := h1
        have hflag : env.flagExists = false := by
          rcases hor with h | h
          · rw [hrh] at h; cases h
          · exact h
        simp [apply_patch, hlook, hrh, hap, hflag] at hmem
      · by_cases h2 : lower_true_or_1 env.forceFailVar = true
        · simp [apply_patch, hlook, h1, h2] at hmem
        · by_cases h3 : lower_true_or_1 env.skipTestVar = false
              ∧ env.testPasses = false
          · simp [apply_patch, hlook, h1, h2, h3] at hmem
          · cases hp : env.persistErr with
            | some e => simp [apply_patch, hlook, h1, h2, h3, hp] at hmem
            | none =>
              by_cases h4 : env_truthy env.autoCommitVar true = true
              · cases hcr : env.commitResult with
                | error e =>
                    simp [apply_patch, hlook, h1, h2, h3, hp, h4, hcr] at hmem
                | ok hash =>
                    exfalso
                    simp [apply_patch, hlook, h1, h2, h3, hp, h4, hcr] at herr
              · exfalso
                simp [apply_patch, hlook, h1, h2, h3, hp, h4] at herr
  · cases hlook : store.lookup req.patch_id with
    | none => simp [apply_patch, hlook]
    | some pending =>
      by_cases h1 : pending.requires_hitl = true ∧ req.approved = false
          ∧ (pending.requires_hitl = false ∨ env.flagExists = false)
      · obtain ⟨hrh, hap, hor⟩ := h1
        have hflag : env.flagExists = false := by
          rcases hor with h | h
          · rw [hrh] at h; cases h
          · exact h
        simp [apply_patch, hlook, hrh, hap, hflag]
      · by_cases h2 : lower_true_or_1 env.forceFailVar = true
        · simp [apply_patch, hlook, h1, h2]
        · by_cases h3 : lower_true_or_1 env.skipTestVar = false
              ∧ env.testPasses = false
          · simp [apply_patch, hlook, h1, h2, h3]
          · cases hp : env.persistErr with
            | some e => simp [apply_patch, hlook, h1, h2, h3, hp]
            | none =>
              by_cases h4 : env_truthy env.autoCommitVar true = true
              · cases hcr : env.commitResult with
                | error e => simp [apply_patch, hlook, h1, h2, h3, hp, h4, hcr]
                | ok hash => simp [apply_patch, hlook, h1, h2, h3, hp, h4, hcr]
              · simp [apply_patch, hlook, h1, h2, h3, hp, h4]

/-- Witness for C8: a committed `python_skill` apply with auto-evolve on
does perform the evolve call. -/
theorem apply_patch_evolve_gate_witness :
    ∃ p b, FsEffect.evolve p b ∈
      (apply_patch [("id2", ⟨"code", false, "python_skill"⟩)]
        ⟨false, none, some "true", some "true", some "true", false, none,
         .ok "ffff", true⟩
        ⟨"id2", true, "python_skill", false⟩).effects :=
  ((apply_patch_evolve_gate [("id2", ⟨"code", false, "python_skill"⟩)]
      ⟨false, none, some "true", some "true", some "true", false, none,
       .ok "ffff", true⟩
      ⟨"id2", true, "python_skill", false⟩).1
    ⟨"code", false, "python_skill"⟩ rfl ⟨true, "ffff"⟩ rfl).mpr
    ⟨by decide, by decide, rfl⟩

/-- Witness for C9: the amended per-variable rules evaluated at concrete
values, including the HITL-gate mapping of recognized values (`"YES"` on,
`"No"` off) and its default on an unrecognized value. -/
theorem env_parsing_rules_witness :
    env_truthy (some " On ") true = specTruthy (rustTrim " On ")
    ∧ (main_env_bool (some " TRUE ") = true ↔
        (asciiLower (rustTrim " TRUE ") = "true" ∨ " TRUE " = "1"))
    ∧ specTruthy (rustTrim " TRUE ") = true
    ∧ specTruthy "1" = true
    ∧ hitl_gate_env (some "banana") = true
    ∧ hitl_gate_env (some "YES") = true
    ∧ hitl_gate_env (some "No") = false :=
  ⟨env_parsing_rules.1 " On " true,
   env_parsing_rules.2.2.1 " TRUE ",
   env_parsing_rules.2.2.2.1 " TRUE " (by decide),
   env_parsing_rules.2.2.2.2.2.1 "1" (by decide),
   env_parsing_rules.2.2.2.2.2.2.1 "banana" (by decide) (by decide)
     (by decide) (by decide) (by decide) (by decide),
   env_parsing_rules.2.2.2.2.2.2.2.2.1 "YES" (Or.inr (Or.inr (by decide))),
   env_parsing_rules.2.2.2.2.2.2.2.2.2 "No" (Or.inr (Or.inr (by decide)))⟩

set_option maxRecDepth 1000000 in
/-- FIPS 180-4 test vector: the SHA-256 digest of the empty message,
validating the embedded compression function and hex rendering. -/
theorem sha256_empty_vector :
    hexLower (sha256 [])
      = "e3b0c44298fc1c149afbf4c8996fb92427ae41e4649b934ca495991b7852b855" := by
  decide

set_option maxRecDepth 1000000 in
/-- FIPS 180-4 test vector: the SHA-256 digest of `"abc"`. -/
theorem sha256_abc_vector :
    hexLower (sha256 (strBytes "abc"))
      = "ba7816bf8f01cfea414140de5dae2223b00361a396177a9cb410ff61f20015ad" := by
  decide

end Pagi
